import Mathlib

/-!
Shallow embedding of `Rainfall_Prediction/preprocessing.py`, centred on
`preprocess_rainfall_data` and the dataframes it builds.

Modelling conventions:
* A pandas float cell is `Option ℚ`: `none` is NaN (the null of a float
  column), `some q` a finite value.  The structural claims under study do
  not depend on float rounding, so exact rationals stand in for float64.
* `yoy_change_pct` divides by a possibly-zero previous value; pandas
  produces IEEE infinities there, so that one column is modelled by
  `PFloat`, which carries finite values, the two infinities and NaN.
* `pd.read_csv` and `pd.melt` raise on failure; a raised exception is
  modelled as `Except.error`, and the absence of try/except in the source
  is modelled by propagating the error.
-/

/-- A row of the wide CSV after the lowercasing of column names:
a subdivision, a year, and twelve monthly rainfall cells. -/
structure RawRow where
  subdivision : String
  year : Int
  jan : Option ℚ
  feb : Option ℚ
  mar : Option ℚ
  apr : Option ℚ
  may : Option ℚ
  jun : Option ℚ
  jul : Option ℚ
  aug : Option ℚ
  sep : Option ℚ
  oct : Option ℚ
  nov : Option ℚ
  dec : Option ℚ
deriving DecidableEq, Repr

/-- `months = [jan, feb, ..., dec]` from the source. -/
def months : List String :=
  ["jan", "feb", "mar", "apr", "may", "jun", "jul", "aug", "sep", "oct", "nov", "dec"]

/-- The cell of a raw row in the column named by a month string. -/
def monthVal (r : RawRow) : String → Option ℚ
  | "jan" => r.jan
  | "feb" => r.feb
  | "mar" => r.mar
  | "apr" => r.apr
  | "may" => r.may
  | "jun" => r.jun
  | "jul" => r.jul
  | "aug" => r.aug
  | "sep" => r.sep
  | "oct" => r.oct
  | "nov" => r.nov
  | "dec" => r.dec
  | _ => none

/-- A row of `df_melted` right after `pd.melt`. -/
structure MeltRec where
  subdivision : String
  year : Int
  month : String
  rainfall : Option ℚ
deriving DecidableEq, Repr

/-- `pd.melt(df, id_vars=[subdivision, year], value_vars=months, ...)`:
the output stacks one block per month column, each block holding one
record per source row, in source order. -/
def meltRows (rows : List RawRow) : List MeltRec :=
  months.flatMap fun m =>
    rows.map fun r =>
      { subdivision := r.subdivision, year := r.year, month := m, rainfall := monthVal r m }

/-- `month_to_num = \x7bmonth: i+1 for i, month in enumerate(months)\x7d`,
applied via `.map`; every melted record has its month in `months`, so the
dictionary is total on the values that occur (0 is unreachable junk). -/
def monthToNum : String → Nat
  | "jan" => 1
  | "feb" => 2
  | "mar" => 3
  | "apr" => 4
  | "may" => 5
  | "jun" => 6
  | "jul" => 7
  | "aug" => 8
  | "sep" => 9
  | "oct" => 10
  | "nov" => 11
  | "dec" => 12
  | _ => 0

/-- A melted row after the `month_num` column is attached. -/
structure NRec where
  subdivision : String
  year : Int
  month : String
  rainfall : Option ℚ
  month_num : Nat
deriving DecidableEq, Repr

/-- `df_melted[month_num] = df_melted[month].map(month_to_num)`. -/
def withMonthNum (xs : List MeltRec) : List NRec :=
  xs.map fun r =>
    { subdivision := r.subdivision, year := r.year, month := r.month,
      rainfall := r.rainfall, month_num := monthToNum r.month }

/-- The lexicographic sort key of
`df_melted.sort_values([subdivision, year, month_num])`; strings compare
lexicographically by code point, i.e. by their character lists. -/
def keyLE (a b : NRec) : Prop :=
  a.subdivision.data < b.subdivision.data ∨
    (a.subdivision = b.subdivision ∧ (a.year < b.year ∨
      (a.year = b.year ∧ a.month_num ≤ b.month_num)))

instance : DecidableRel keyLE := fun a b =>
  inferInstanceAs (Decidable (a.subdivision.data < b.subdivision.data ∨
    (a.subdivision = b.subdivision ∧ (a.year < b.year ∨
      (a.year = b.year ∧ a.month_num ≤ b.month_num)))))

/-- `df_melted.sort_values([subdivision, year, month_num])`.  The sort keys
of distinct rows are distinct in every run of the pipeline (one row per
subdivision, year and month), so the sort of the library is determined by
the key order alone; an insertion sort realises it. -/
def sortRecs (xs : List NRec) : List NRec :=
  List.insertionSort keyLE xs

/-- A row of the long dataframe once the `date` column
(`pd.to_datetime(year-month_num-01)`, the first day of the month) is
attached; the date is the triple (year, month, day). -/
structure LRec where
  subdivision : String
  year : Int
  month : String
  rainfall : Option ℚ
  month_num : Nat
  date : Int × Nat × Nat
deriving DecidableEq, Repr

/-- `df_melted[date] = pd.to_datetime(year + "-" + month_num + "-01")`. -/
def withDate (xs : List NRec) : List LRec :=
  xs.map fun r =>
    { subdivision := r.subdivision, year := r.year, month := r.month,
      rainfall := r.rainfall, month_num := r.month_num,
      date := (r.year, r.month_num, 1) }

/-- The non-null rainfall values of the (subdivision, month) group. -/
def groupVals (xs : List LRec) (sub mon : String) : List ℚ :=
  (xs.filter fun r => decide (r.subdivision = sub ∧ r.month = mon)).filterMap (·.rainfall)

/-- `x.mean()` of a group: pandas skips NaN and yields NaN on an
all-NaN group. -/
def groupMean (xs : List LRec) (sub mon : String) : Option ℚ :=
  let vs := groupVals xs sub mon
  if vs.length = 0 then none else some (vs.sum / vs.length)

/-- What `fillna(x.mean())` does to one cell of a group: a non-null cell
is kept, a null cell becomes the group mean. -/
def fillCell (xs : List LRec) (r : LRec) : LRec :=
  match r.rainfall with
  | some v => { r with rainfall := some v }
  | none => { r with rainfall := groupMean xs r.subdivision r.month }

/-- `groupby([subdivision, month])[rainfall].transform(lambda x: x.fillna(x.mean()))`:
`transform` keeps the original row order and `fillna` touches only the
null cells. -/
def fillnaMean (xs : List LRec) : List LRec :=
  xs.map (fillCell xs)

/-- `df_melted[rainfall].isna().sum()`. -/
def missingCount (xs : List LRec) : Nat :=
  (xs.filter fun r => r.rainfall.isNone).length

/-- The imputation step together with its `if missing_values > 0` guard. -/
def imputeStep (xs : List LRec) : List LRec :=
  if 0 < missingCount xs then fillnaMean xs else xs

/-- The `season_map` dictionary; `month_num` is always 1..12 in the
pipeline, so the junk default is unreachable. -/
def season_map : Nat → String
  | 1 => "Winter"
  | 2 => "Winter"
  | 3 => "Spring"
  | 4 => "Spring"
  | 5 => "Spring"
  | 6 => "Summer"
  | 7 => "Summer"
  | 8 => "Summer"
  | 9 => "Autumn"
  | 10 => "Autumn"
  | 11 => "Autumn"
  | 12 => "Winter"
  | _ => ""

/-- `.sum()` of the rainfall of one (subdivision, year, season) group:
pandas sums the non-NaN cells (0 on an all-NaN group). -/
def seasonGroupSum (xs : List LRec) (sub : String) (y : Int) (s : String) : ℚ :=
  ((xs.filter fun r =>
    decide (r.subdivision = sub ∧ r.year = y ∧ season_map r.month_num = s)).filterMap
      (·.rainfall)).sum

/-- A row of `seasonal_df`. -/
structure SeasonalRec where
  subdivision : String
  year : Int
  season : String
  rainfall : ℚ
deriving DecidableEq, Repr

/-- `df_melted.groupby([subdivision, year, season])[rainfall].sum().reset_index()`:
one output row per distinct (subdivision, year, season) key that occurs. -/
def seasonalDf (xs : List LRec) : List SeasonalRec :=
  ((xs.map fun r => (r.subdivision, r.year, season_map r.month_num)).dedup).map fun k =>
    { subdivision := k.1, year := k.2.1, season := k.2.2,
      rainfall := seasonGroupSum xs k.1 k.2.1 k.2.2 }

/-- The value of a float expression that can leave the finite range:
a finite rational, one of the IEEE infinities, or NaN. -/
inductive PFloat where
  | fin : ℚ → PFloat
  | pinf : PFloat
  | ninf : PFloat
  | nan : PFloat
deriving DecidableEq, Repr

/-- Float subtraction of two nullable cells: NaN propagates. -/
def subOpt (a b : Option ℚ) : Option ℚ :=
  match a, b with
  | some x, some y => some (x - y)
  | _, _ => none

/-- Float division of nullable cells as pandas evaluates it on float
columns: NaN propagates, x/0 is NaN for x = 0 and a signed infinity for
x ≠ 0; no exception is ever raised. -/
def fdiv (a b : Option ℚ) : PFloat :=
  match a, b with
  | some x, some y =>
      if y = 0 then (if x = 0 then .nan else if 0 < x then .pinf else .ninf)
      else .fin (x / y)
  | _, _ => .nan

/-- Multiplication by the literal 100 of the source; 100 is positive, so
the infinities keep their sign and NaN propagates. -/
def fmul100 : PFloat → PFloat
  | .fin x => .fin (x * 100)
  | .pinf => .pinf
  | .ninf => .ninf
  | .nan => .nan

/-- A row of the fully enriched monthly dataframe. -/
structure ERec where
  subdivision : String
  year : Int
  month : String
  rainfall : Option ℚ
  month_num : Nat
  date : Int × Nat × Nat
  season : String
  prev_year_rainfall : Option ℚ
  yoy_change : Option ℚ
  yoy_change_pct : PFloat
deriving DecidableEq, Repr

/-- `groupby([subdivision, month])[rainfall].shift(1)` evaluated at row
index `i` holding record `r`: the rainfall of the nearest earlier row of
the same (subdivision, month) group in dataframe order, NaN when the row
is the first of its group (and NaN when that cell is itself NaN). -/
def shiftPrev (xs : List LRec) (i : Nat) (r : LRec) : Option ℚ :=
  (((xs.take i).filter fun q =>
    decide (q.subdivision = r.subdivision ∧ q.month = r.month)).getLast?).bind (·.rainfall)

/-- The season, prev_year_rainfall, yoy_change and yoy_change_pct columns
of the source, attached to the row of index `p.1` holding record `p.2`. -/
def enrichRow (xs : List LRec) (p : Nat × LRec) : ERec :=
  let r := p.2
  let prev := shiftPrev xs p.1 r
  let chg := subOpt r.rainfall prev
  { subdivision := r.subdivision, year := r.year, month := r.month,
    rainfall := r.rainfall, month_num := r.month_num, date := r.date,
    season := season_map r.month_num,
    prev_year_rainfall := prev,
    yoy_change := chg,
    yoy_change_pct := fmul100 (fdiv chg prev) }

/-- The enrichment applied to every row of the long table. -/
def enrich (xs : List LRec) : List ERec :=
  xs.enum.map (enrichRow xs)

/-- The long dataframe as it stands after melt, month_num, sort and date. -/
def dfMelted (rows : List RawRow) : List LRec :=
  withDate (sortRecs (withMonthNum (meltRows rows)))

/-- The long dataframe after the imputation step. -/
def dfImputed (rows : List RawRow) : List LRec :=
  imputeStep (dfMelted rows)

/-- The monthly output dataframe of `preprocess_rainfall_data`. -/
def monthlyDf (rows : List RawRow) : List ERec :=
  enrich (dfImputed rows)

/-- The seasonal output dataframe of `preprocess_rainfall_data`. -/
def seasonalOf (rows : List RawRow) : List SeasonalRec :=
  seasonalDf (dfImputed rows)

/-- `col.lower()`: lower-case every character of a column name (the
headers are ASCII). -/
def lowerStr (s : String) : String :=
  ⟨s.data.map Char.toLower⟩

/-- The in-memory DataFrame as far as column presence matters: the header
column names, and the parsed rows. -/
structure Frame where
  cols : List String
  rows : List RawRow

/-- `pd.melt` raises KeyError when an id_var is not among the columns of
the frame; otherwise it reshapes the rows. -/
def meltFrame (fr : Frame) : Except String (List MeltRec) :=
  if "subdivision" ∈ fr.cols ∧ "year" ∈ fr.cols then .ok (meltRows fr.rows)
  else .error "KeyError: id_vars are not present in the DataFrame"

/-- The dictionary returned by `preprocess_rainfall_data`. -/
structure PipelineOut where
  monthly : List ERec
  seasonal : List SeasonalRec
  original : Frame

/-- `preprocess_rainfall_data(file_path)`.  `pd.read_csv` either yields a
frame or raises; the function body contains no try/except, so a load
failure, like a melt KeyError, propagates to the caller as an error. -/
def preprocess_rainfall_data (load : Except String Frame) : Except String PipelineOut :=
  match load with
  | .error e => .error e
  | .ok fr =>
    let fr2 : Frame := { cols := fr.cols.map lowerStr, rows := fr.rows }
    match meltFrame fr2 with
    | .error e => .error e
    | .ok ms =>
      let xs := imputeStep (withDate (sortRecs (withMonthNum ms)))
      .ok { monthly := enrich xs, seasonal := seasonalDf xs, original := fr2 }

/-! ### Canonical records and basic facts -/

/-- The melted record a raw row contributes for one month, with its
month number. -/
def nrecOf (r : RawRow) (m : String) : NRec :=
  { subdivision := r.subdivision, year := r.year, month := m,
    rainfall := monthVal r m, month_num := monthToNum m }

/-- The long record a raw row contributes for one month. -/
def lrecOf (r : RawRow) (m : String) : LRec :=
  { subdivision := r.subdivision, year := r.year, month := m,
    rainfall := monthVal r m, month_num := monthToNum m,
    date := (r.year, monthToNum m, 1) }

/-- The (subdivision, year, month_num) sort key of a melted record. -/
def keyN (r : NRec) : String × Int × Nat :=
  (r.subdivision, r.year, r.month_num)

/-- The strict version of the sort-key order. -/
def keyLT (a b : NRec) : Prop :=
  a.subdivision.data < b.subdivision.data ∨
    (a.subdivision = b.subdivision ∧ (a.year < b.year ∨
      (a.year = b.year ∧ a.month_num < b.month_num)))

/-- The three calendar months of each season, as the specification fixes
them: Dec, Jan, Feb are Winter; Mar, Apr, May Spring; Jun, Jul, Aug
Summer; Sep, Oct, Nov Autumn (listed in calendar order). -/
def seasonMonthsSpec : String → List String
  | "Winter" => ["jan", "feb", "dec"]
  | "Spring" => ["mar", "apr", "may"]
  | "Summer" => ["jun", "jul", "aug"]
  | "Autumn" => ["sep", "oct", "nov"]
  | _ => []

/-- The rainfall cell of the monthly output table at one
(subdivision, year, month): the cell of the single matching record, none
when no record matches or the cell is null. -/
def monthlyRainfall (rows : List RawRow) (sub : String) (y : Int) (m : String) : Option ℚ :=
  ((((monthlyDf rows).filter fun r =>
      decide (r.subdivision = sub ∧ r.year = y ∧ r.month = m)).map
        (fun r => r.rainfall)).head?).join

/-- The raw row of the running example: subdivision X, year 1901,
jan 10, feb 20, then 30, 40, ..., 110 and dec 15. -/
def rowX1901 : RawRow :=
  { subdivision := "X", year := 1901, jan := some 10, feb := some 20,
    mar := some 30, apr := some 40, may := some 50, jun := some 60,
    jul := some 70, aug := some 80, sep := some 90, oct := some 100,
    nov := some 110, dec := some 15 }

/-- A one-row wide table. -/
def rowsOne : List RawRow := [rowX1901]

/-- A two-record long table whose single (X, jan) group holds the
rainfall cells 10 and null. -/
def impExample : List LRec :=
  [{ subdivision := "X", year := 1901, month := "jan", rainfall := some 10,
     month_num := 1, date := (1901, 1, 1) },
   { subdivision := "X", year := 1902, month := "jan", rainfall := none,
     month_num := 1, date := (1902, 1, 1) }]

/-- Two consecutive years for subdivision X; january rainfall 0 then 5. -/
def rowsZero : List RawRow :=
  [{ subdivision := "X", year := 1901, jan := some 0, feb := some 1,
     mar := some 1, apr := some 1, may := some 1, jun := some 1,
     jul := some 1, aug := some 1, sep := some 1, oct := some 1,
     nov := some 1, dec := some 1 },
   { subdivision := "X", year := 1902, jan := some 5, feb := some 1,
     mar := some 1, apr := some 1, may := some 1, jun := some 1,
     jul := some 1, aug := some 1, sep := some 1, oct := some 1,
     nov := some 1, dec := some 1 }]

/-- Years 1901 and 1903 for subdivision X, with no 1902 row; january
rainfall 7 and 9. -/
def rowsGap : List RawRow :=
  [{ subdivision := "X", year := 1901, jan := some 7, feb := some 1,
     mar := some 1, apr := some 1, may := some 1, jun := some 1,
     jul := some 1, aug := some 1, sep := some 1, oct := some 1,
     nov := some 1, dec := some 1 },
   { subdivision := "X", year := 1903, jan := some 9, feb := some 1,
     mar := some 1, apr := some 1, may := some 1, jun := some 1,
     jul := some 1, aug := some 1, sep := some 1, oct := some 1,
     nov := some 1, dec := some 1 }]

/-- A frame whose header lacks the year column. -/
def frameNoYear : Frame :=
  { cols := ["subdivision", "jan"], rows := [] }

/-- The enriched january 1901 record of the gap table: the first year of
its series, so its previous-year fields are null. -/
def janRecGap : ERec :=
  { subdivision := "X", year := 1901, month := "jan", rainfall := some 7,
    month_num := 1, date := (1901, 1, 1), season := "Winter",
    prev_year_rainfall := none, yoy_change := none,
    yoy_change_pct := PFloat.nan }

/-- The enriched january record of the one-row example table: the first
year of its series, so its previous-year fields are null. -/
def janRecOne : ERec :=
  { subdivision := "X", year := 1901, month := "jan", rainfall := some 10,
    month_num := 1, date := (1901, 1, 1), season := "Winter",
    prev_year_rainfall := none, yoy_change := none,
    yoy_change_pct := PFloat.nan }

instance : IsTrans NRec keyLE := by
  constructor
  intro a b c hab hbc
  rcases hab with h1 | ⟨e1, h1⟩ <;> rcases hbc with h2 | ⟨e2, h2⟩
  · exact Or.inl (lt_trans h1 h2)
  · exact Or.inl (e2 ▸ h1)
  · exact Or.inl (e1.symm ▸ h2)
  · refine Or.inr ⟨e1.trans e2, ?_⟩
    rcases h1 with hy1 | ⟨ey1, hm1⟩ <;> rcases h2 with hy2 | ⟨ey2, hm2⟩
    · exact Or.inl (by omega)
    · exact Or.inl (by omega)
    · exact Or.inl (by omega)
    · exact Or.inr ⟨by omega, by omega⟩

instance : IsTotal NRec keyLE := by
  constructor
  intro a b
  rcases lt_trichotomy a.subdivision.data b.subdivision.data with h | h | h
  · exact Or.inl (Or.inl h)
  · have e : a.subdivision = b.subdivision := String.ext h
    rcases lt_trichotomy a.year b.year with hy | hy | hy
    · exact Or.inl (Or.inr ⟨e, Or.inl hy⟩)
    · rcases Nat.le_total a.month_num b.month_num with hm | hm
      · exact Or.inl (Or.inr ⟨e, Or.inr ⟨hy, hm⟩⟩)
      · exact Or.inr (Or.inr ⟨e.symm, Or.inr ⟨hy.symm, hm⟩⟩)
    · exact Or.inr (Or.inr ⟨e.symm, Or.inl hy⟩)
  · exact Or.inr (Or.inl h)

lemma keyLT_asymm (a b : NRec) (h1 : keyLT a b) (h2 : keyLT b a) : False := by
  rcases h1 with h1 | ⟨e1, h1⟩ <;> rcases h2 with h2 | ⟨e2, h2⟩
  · exact lt_asymm h1 h2
  · exact lt_irrefl _ (e2 ▸ h1)
  · exact lt_irrefl _ (e1 ▸ h2)
  · rcases h1 with hy1 | ⟨ey1, hm1⟩ <;> rcases h2 with hy2 | ⟨ey2, hm2⟩ <;> omega

instance : IsAntisymm NRec keyLT :=
  ⟨fun a b h1 h2 => (keyLT_asymm a b h1 h2).elim⟩

lemma months_nodup : months.Nodup := by decide

lemma monthToNum_pairwise_lt :
    List.Pairwise (fun a b => monthToNum a < monthToNum b) months := by decide

lemma monthToNum_pairwise_ne :
    List.Pairwise (fun a b => monthToNum a ≠ monthToNum b) months := by decide

lemma keyLE_ne_keyLT (a b : NRec) (h : keyLE a b) (hne : keyN a ≠ keyN b) :
    keyLT a b := by
  rcases h with h | ⟨e, h⟩
  · exact Or.inl h
  · rcases h with hy | ⟨ey, hm⟩
    · exact Or.inr ⟨e, Or.inl hy⟩
    · rcases Nat.lt_or_ge a.month_num b.month_num with hlt | hge
      · exact Or.inr ⟨e, Or.inr ⟨ey, hlt⟩⟩
      · exact absurd (by simp [keyN, e, ey, le_antisymm hm hge] : keyN a = keyN b) hne

/-! ### The shape of the melted table -/

lemma withMonthNum_meltRows (rows : List RawRow) :
    withMonthNum (meltRows rows) =
      months.flatMap fun m => rows.map fun r => nrecOf r m := by
  simp only [withMonthNum, meltRows, List.map_flatMap, List.map_map]
  rfl

/-- In a wide table with unique (subdivision, year) keys, filtering the
rows by the key of a present row keeps exactly that row. -/
lemma filter_rawKey_eq_single {rows : List RawRow}
    (hkeys : (rows.map fun r => (r.subdivision, r.year)).Nodup)
    {row : RawRow} (hrow : row ∈ rows) :
    rows.filter (fun r => decide (r.subdivision = row.subdivision ∧ r.year = row.year))
      = [row] := by
  induction rows with
  | nil => cases hrow
  | cons a t ih =>
    rw [List.map_cons, List.nodup_cons] at hkeys
    rcases List.mem_cons.mp hrow with rfl | hrow2
    · rw [List.filter_cons, if_pos (by simp)]
      have ht : t.filter
          (fun r => decide (r.subdivision = row.subdivision ∧ r.year = row.year)) = [] := by
        refine List.filter_eq_nil_iff.mpr ?_
        intro x hx
        simp only [decide_eq_true_eq, not_and]
        intro h1 h2
        exact hkeys.1 (by rw [← h1, ← h2]; exact List.mem_map_of_mem _ hx)
      rw [ht]
    · have hne : ¬(a.subdivision = row.subdivision ∧ a.year = row.year) := by
        rintro ⟨h1, h2⟩
        exact hkeys.1 (by rw [h1, h2]; exact List.mem_map_of_mem _ hrow2)
      rw [List.filter_cons, if_neg (by simpa using hne)]
      exact ih hkeys.2 hrow2

lemma flatMap_single {α β : Type} (l : List α) (f : α → β) :
    (l.flatMap fun a => [f a]) = l.map f := by
  induction l with
  | nil => rfl
  | cons a t ih => simp [List.flatMap_cons, ih]

/-- One month block of the melted table, filtered by a present unique
(subdivision, year) key, keeps exactly the record of that row. -/
lemma filter_block_eq_single {rows : List RawRow}
    (hkeys : (rows.map fun r => (r.subdivision, r.year)).Nodup)
    {row : RawRow} (hrow : row ∈ rows) (m : String) :
    (rows.map fun r => nrecOf r m).filter
        (fun x => decide (x.subdivision = row.subdivision ∧ x.year = row.year))
      = [nrecOf row m] := by
  rw [List.filter_map]
  have hc : ((fun x : NRec => decide (x.subdivision = row.subdivision ∧ x.year = row.year)) ∘
      fun r => nrecOf r m) =
      fun r : RawRow => decide (r.subdivision = row.subdivision ∧ r.year = row.year) := rfl
  rw [hc, filter_rawKey_eq_single hkeys hrow]
  rfl

/-- The melted table filtered by a present unique (subdivision, year) key
is exactly the twelve records of that row, in month order. -/
lemma melt_filter_key {rows : List RawRow}
    (hkeys : (rows.map fun r => (r.subdivision, r.year)).Nodup)
    {row : RawRow} (hrow : row ∈ rows) :
    (withMonthNum (meltRows rows)).filter
        (fun x => decide (x.subdivision = row.subdivision ∧ x.year = row.year))
      = months.map (nrecOf row) := by
  rw [withMonthNum_meltRows, List.filter_flatMap]
  have hb : ∀ m : String,
      (rows.map fun r => nrecOf r m).filter
          (fun x => decide (x.subdivision = row.subdivision ∧ x.year = row.year))
        = [nrecOf row m] := fun m => filter_block_eq_single hkeys hrow m
  simp only [hb]
  exact flatMap_single months (nrecOf row)

/-- With unique (subdivision, year) keys, the (subdivision, year,
month_num) keys of the melted table are pairwise distinct. -/
lemma melt_keys_nodup {rows : List RawRow}
    (hkeys : (rows.map fun r => (r.subdivision, r.year)).Nodup) :
    ((withMonthNum (meltRows rows)).map keyN).Nodup := by
  rw [withMonthNum_meltRows, List.map_flatMap]
  rw [List.nodup_flatMap]
  constructor
  · intro m hm
    rw [List.map_map]
    have hc : (keyN ∘ fun r => nrecOf r m) =
        ((fun p : String × Int => (p.1, p.2, monthToNum m)) ∘
          fun r : RawRow => (r.subdivision, r.year)) := rfl
    rw [hc, ← List.map_map]
    refine hkeys.map ?_
    intro p q h
    simp only [Prod.mk.injEq] at h
    exact Prod.ext h.1 h.2.1
  · refine monthToNum_pairwise_ne.imp ?_
    intro m1 m2 hne
    intro x hx1 hx2
    rcases List.mem_map.mp hx1 with ⟨y1, hy1, hk1⟩
    rcases List.mem_map.mp hy1 with ⟨r1, hr1, rfl⟩
    rcases List.mem_map.mp hx2 with ⟨y2, hy2, hk2⟩
    rcases List.mem_map.mp hy2 with ⟨r2, hr2, rfl⟩
    apply hne
    have h12 : keyN (nrecOf r1 m1) = keyN (nrecOf r2 m2) := hk1.trans hk2.symm
    have := congrArg (fun t : String × Int × Nat => t.2.2) h12
    simpa [keyN, nrecOf] using this

lemma sorted_sortRecs (xs : List NRec) :
    List.Pairwise keyLE (sortRecs xs) :=
  List.sorted_insertionSort keyLE xs

/-- With unique raw keys the sorted melted table is strictly increasing
in the sort key. -/
lemma pairwise_keyLT_sorted {rows : List RawRow}
    (hkeys : (rows.map fun r => (r.subdivision, r.year)).Nodup) :
    List.Pairwise keyLT (sortRecs (withMonthNum (meltRows rows))) := by
  have hs := sorted_sortRecs (withMonthNum (meltRows rows))
  have hperm : (sortRecs (withMonthNum (meltRows rows))).Perm
      (withMonthNum (meltRows rows)) :=
    List.perm_insertionSort keyLE (withMonthNum (meltRows rows))
  have hN : ((sortRecs (withMonthNum (meltRows rows))).map keyN).Nodup :=
    ((hperm.map keyN).symm).nodup (melt_keys_nodup hkeys)
  have hpne : List.Pairwise (fun a b : NRec => keyN a ≠ keyN b)
      (sortRecs (withMonthNum (meltRows rows))) := List.pairwise_map.mp hN
  exact (hs.and hpne).imp fun h => keyLE_ne_keyLT _ _ h.1 h.2

/-- The sorted melted table, filtered by a present unique
(subdivision, year) key, is exactly the twelve records of that row in
calendar month order. -/
lemma sorted_filter_key {rows : List RawRow}
    (hkeys : (rows.map fun r => (r.subdivision, r.year)).Nodup)
    {row : RawRow} (hrow : row ∈ rows) :
    (sortRecs (withMonthNum (meltRows rows))).filter
        (fun x => decide (x.subdivision = row.subdivision ∧ x.year = row.year))
      = months.map (nrecOf row) := by
  have hperm : ((sortRecs (withMonthNum (meltRows rows))).filter
      (fun x => decide (x.subdivision = row.subdivision ∧ x.year = row.year))).Perm
      (months.map (nrecOf row)) := by
    have h1 := (List.perm_insertionSort keyLE (withMonthNum (meltRows rows))).filter
      (fun x => decide (x.subdivision = row.subdivision ∧ x.year = row.year))
    rw [melt_filter_key hkeys hrow] at h1
    exact h1
  have hs1 : List.Pairwise keyLT
      ((sortRecs (withMonthNum (meltRows rows))).filter
        (fun x => decide (x.subdivision = row.subdivision ∧ x.year = row.year))) :=
    (pairwise_keyLT_sorted hkeys).filter _
  have hs2 : List.Pairwise keyLT (months.map (nrecOf row)) := by
    rw [List.pairwise_map]
    exact monthToNum_pairwise_lt.imp fun h => Or.inr ⟨rfl, Or.inr ⟨rfl, h⟩⟩
  exact List.eq_of_perm_of_sorted hperm hs1 hs2

/-- The monthly long table (melt, month numbers, sort, dates), filtered by
a present unique (subdivision, year) key, is exactly the twelve long
records of that row, in calendar month order. -/
lemma dfMelted_filter_key {rows : List RawRow}
    (hkeys : (rows.map fun r => (r.subdivision, r.year)).Nodup)
    {row : RawRow} (hrow : row ∈ rows) :
    (dfMelted rows).filter
        (fun x => decide (x.subdivision = row.subdivision ∧ x.year = row.year))
      = months.map (lrecOf row) := by
  rw [dfMelted, withDate, List.filter_map]
  have hc : ((fun x : LRec => decide (x.subdivision = row.subdivision ∧ x.year = row.year)) ∘
      fun r : NRec =>
        ({ subdivision := r.subdivision, year := r.year, month := r.month,
           rainfall := r.rainfall, month_num := r.month_num,
           date := (r.year, r.month_num, 1) } : LRec)) =
      fun x : NRec => decide (x.subdivision = row.subdivision ∧ x.year = row.year) := rfl
  rw [hc, sorted_filter_key hkeys hrow, List.map_map]
  rfl

/-! ### The imputation step as a per-row map -/

@[simp] lemma fillCell_subdivision (xs : List LRec) (r : LRec) :
    (fillCell xs r).subdivision = r.subdivision := by
  cases h : r.rainfall <;> simp [fillCell, h]

@[simp] lemma fillCell_year (xs : List LRec) (r : LRec) :
    (fillCell xs r).year = r.year := by
  cases h : r.rainfall <;> simp [fillCell, h]

@[simp] lemma fillCell_month (xs : List LRec) (r : LRec) :
    (fillCell xs r).month = r.month := by
  cases h : r.rainfall <;> simp [fillCell, h]

@[simp] lemma fillCell_month_num (xs : List LRec) (r : LRec) :
    (fillCell xs r).month_num = r.month_num := by
  cases h : r.rainfall <;> simp [fillCell, h]

@[simp] lemma fillCell_date (xs : List LRec) (r : LRec) :
    (fillCell xs r).date = r.date := by
  cases h : r.rainfall <;> simp [fillCell, h]

lemma fillCell_of_some (xs : List LRec) {r : LRec} {v : ℚ}
    (h : r.rainfall = some v) : fillCell xs r = r := by
  simp only [fillCell, h]
  rw [← h]

lemma fillCell_of_none (xs : List LRec) {r : LRec}
    (h : r.rainfall = none) :
    fillCell xs r = { r with rainfall := groupMean xs r.subdivision r.month } := by
  simp only [fillCell, h]

/-- With or without its missing-value guard, the imputation step is the
per-row `fillna` map: when no value is missing the map is the identity. -/
lemma imputeStep_eq_map (xs : List LRec) :
    imputeStep xs = xs.map (fillCell xs) := by
  unfold imputeStep fillnaMean
  split
  · rfl
  · rename_i hguard
    have hzero : missingCount xs = 0 := by omega
    have hnil : xs.filter (fun r => r.rainfall.isNone) = [] :=
      List.length_eq_zero.mp hzero
    have hall := List.filter_eq_nil_iff.mp hnil
    symm
    calc xs.map (fillCell xs) = xs.map id := by
          refine List.map_congr_left ?_
          intro a ha
          cases hv : a.rainfall with
          | none => exact absurd (by simp [hv]) (hall a ha)
          | some v => exact fillCell_of_some xs hv
      _ = xs := List.map_id xs

lemma dfImputed_eq_map (rows : List RawRow) :
    dfImputed rows = (dfMelted rows).map (fillCell (dfMelted rows)) := by
  rw [dfImputed, imputeStep_eq_map]

/-- The imputed long table, filtered by a present unique
(subdivision, year) key, is exactly the twelve imputed records of that
row, in calendar month order. -/
lemma dfImputed_filter_key {rows : List RawRow}
    (hkeys : (rows.map fun r => (r.subdivision, r.year)).Nodup)
    {row : RawRow} (hrow : row ∈ rows) :
    (dfImputed rows).filter
        (fun x => decide (x.subdivision = row.subdivision ∧ x.year = row.year))
      = months.map fun m => fillCell (dfMelted rows) (lrecOf row m) := by
  rw [dfImputed_eq_map, List.filter_map]
  have hc : ∀ x ∈ dfMelted rows,
      ((fun x : LRec => decide (x.subdivision = row.subdivision ∧ x.year = row.year)) ∘
        fillCell (dfMelted rows)) x
        = (fun x : LRec =>
            decide (x.subdivision = row.subdivision ∧ x.year = row.year)) x := by
    intro x hx
    simp [Function.comp]
  rw [List.filter_congr hc, dfMelted_filter_key hkeys hrow, List.map_map]
  rfl

lemma length_enrich (xs : List LRec) : (enrich xs).length = xs.length := by
  simp [enrich]

/-- The enriched record at one row index, in terms of the long record at
that index. -/
lemma enrich_get (xs : List LRec) (i : Nat) (hi : i < xs.length)
    (hi2 : i < (enrich xs).length) :
    (enrich xs).get ⟨i, hi2⟩ =
      { subdivision := (xs.get ⟨i, hi⟩).subdivision,
        year := (xs.get ⟨i, hi⟩).year,
        month := (xs.get ⟨i, hi⟩).month,
        rainfall := (xs.get ⟨i, hi⟩).rainfall,
        month_num := (xs.get ⟨i, hi⟩).month_num,
        date := (xs.get ⟨i, hi⟩).date,
        season := season_map (xs.get ⟨i, hi⟩).month_num,
        prev_year_rainfall := shiftPrev xs i (xs.get ⟨i, hi⟩),
        yoy_change := subOpt (xs.get ⟨i, hi⟩).rainfall (shiftPrev xs i (xs.get ⟨i, hi⟩)),
        yoy_change_pct := fmul100 (fdiv
          (subOpt (xs.get ⟨i, hi⟩).rainfall (shiftPrev xs i (xs.get ⟨i, hi⟩)))
          (shiftPrev xs i (xs.get ⟨i, hi⟩))) } := by
  simp [enrich, enrichRow, List.get_eq_getElem, List.getElem_map, List.getElem_enum]

/-! ### Order structure used by the shift (previous-row) column -/

lemma ns_month_inv {rows : List RawRow} :
    ∀ x ∈ withMonthNum (meltRows rows),
      x.month ∈ months ∧ x.month_num = monthToNum x.month := by
  rw [withMonthNum_meltRows]
  intro x hx
  rcases List.mem_flatMap.mp hx with ⟨m, hm, hx2⟩
  rcases List.mem_map.mp hx2 with ⟨r, hr, rfl⟩
  exact ⟨hm, rfl⟩

/-- In the sorted melted table with unique raw keys, within one
(subdivision, month) group the years grow strictly along the list. -/
lemma groupMono_sorted {rows : List RawRow}
    (hkeys : (rows.map fun r => (r.subdivision, r.year)).Nodup) :
    List.Pairwise (fun a b : NRec =>
      a.subdivision = b.subdivision → a.month = b.month → a.year < b.year)
      (sortRecs (withMonthNum (meltRows rows))) := by
  refine (pairwise_keyLT_sorted hkeys).imp_of_mem ?_
  intro a b ha hb hab hsub hmon
  have hia := ns_month_inv a ((List.mem_insertionSort keyLE).mp ha)
  have hib := ns_month_inv b ((List.mem_insertionSort keyLE).mp hb)
  rcases hab with h | ⟨e, h⟩
  · rw [hsub] at h
    exact absurd h (lt_irrefl _)
  · rcases h with hy | ⟨ey, hm⟩
    · exact hy
    · exfalso
      have : a.month_num = b.month_num := by rw [hia.2, hib.2, hmon]
      omega

/-- The same group monotonicity, carried to the imputed long table. -/
lemma groupMono_imputed {rows : List RawRow}
    (hkeys : (rows.map fun r => (r.subdivision, r.year)).Nodup) :
    List.Pairwise (fun a b : LRec =>
      a.subdivision = b.subdivision → a.month = b.month → a.year < b.year)
      (dfImputed rows) := by
  rw [dfImputed_eq_map]
  simp only [dfMelted, withDate]
  rw [List.pairwise_map, List.pairwise_map]
  refine (groupMono_sorted hkeys).imp ?_
  intro a b h hsub hmon
  simp only [fillCell_subdivision, fillCell_month] at hsub hmon
  simp only [fillCell_year]
  exact h hsub hmon

/-- The rows a grouped `shift(1)` looks back over are exactly the rows of
the same group with a strictly smaller year (in a table whose groups are
strictly increasing in year). -/
lemma shiftPrev_eq_filter (ys : List LRec)
    (hmono : List.Pairwise (fun a b : LRec =>
      a.subdivision = b.subdivision → a.month = b.month → a.year < b.year) ys)
    (i : Nat) (hi : i < ys.length) :
    shiftPrev ys i (ys.get ⟨i, hi⟩) =
      ((ys.filter fun q =>
          decide (q.subdivision = (ys.get ⟨i, hi⟩).subdivision ∧
            q.month = (ys.get ⟨i, hi⟩).month ∧
            q.year < (ys.get ⟨i, hi⟩).year)).getLast?).bind (·.rainfall) := by
  have hsplit : ys.take i ++ ys.drop i = ys := List.take_append_drop i ys
  have hpw : List.Pairwise (fun a b : LRec =>
      a.subdivision = b.subdivision → a.month = b.month → a.year < b.year)
      (ys.take i ++ ys.drop i) := by rw [hsplit]; exact hmono
  rcases List.pairwise_append.mp hpw with ⟨hp1, hp2, hcross⟩
  set r := ys.get ⟨i, hi⟩ with hr
  have hdrop : ys.drop i = r :: ys.drop (i + 1) := by
    rw [hr, List.get_eq_getElem]
    exact List.drop_eq_getElem_cons hi
  have h1 : ∀ x ∈ ys.take i,
      (decide (x.subdivision = r.subdivision ∧ x.month = r.month) : Bool)
        = decide (x.subdivision = r.subdivision ∧ x.month = r.month ∧
            x.year < r.year) := by
    intro x hx
    apply decide_eq_decide.mpr
    constructor
    · rintro ⟨hxs, hxm⟩
      refine ⟨hxs, hxm, ?_⟩
      have hrmem : r ∈ ys.drop i := by rw [hdrop]; exact List.mem_cons_self _ _
      exact hcross x hx r hrmem hxs hxm
    · rintro ⟨hxs, hxm, h3⟩
      exact ⟨hxs, hxm⟩
  have h2 : (ys.drop i).filter (fun q =>
      decide (q.subdivision = r.subdivision ∧ q.month = r.month ∧
        q.year < r.year)) = [] := by
    rw [hdrop, List.filter_cons, if_neg (by simp)]
    refine List.filter_eq_nil_iff.mpr ?_
    intro x hx
    simp only [decide_eq_true_eq, not_and]
    intro hxs hxm
    have hRrx : r.subdivision = x.subdivision → r.month = x.month →
        r.year < x.year := by
      have hdp := hp2
      rw [hdrop] at hdp
      exact (List.pairwise_cons.mp hdp).1 x hx
    have := hRrx hxs.symm hxm.symm
    omega
  have h3 : (ys.take i).filter (fun q =>
        decide (q.subdivision = r.subdivision ∧ q.month = r.month ∧
          q.year < r.year))
      = ys.filter (fun q =>
        decide (q.subdivision = r.subdivision ∧ q.month = r.month ∧
          q.year < r.year)) := by
    conv_rhs => rw [← hsplit]
    rw [List.filter_append, h2, List.append_nil]
  unfold shiftPrev
  rw [List.filter_congr h1, h3]

/-- In a list of records whose years grow strictly, the last element is
the one with the greatest year. -/
lemma getLast?_of_max : ∀ g : List LRec,
    List.Pairwise (fun a b : LRec => a.year < b.year) g →
    ∀ q : LRec, q ∈ g → (∀ x ∈ g, x.year ≤ q.year) → g.getLast? = some q := by
  intro g
  induction g with
  | nil =>
    intro _ q hq
    cases hq
  | cons a t ih =>
    intro hpw q hq hmax
    cases t with
    | nil =>
      rcases List.mem_cons.mp hq with rfl | h
      · rfl
      · cases h
    | cons b t2 =>
      rw [List.getLast?_cons_cons]
      rcases List.mem_cons.mp hq with rfl | hq2
      · exfalso
        have h1 : q.year < b.year :=
          (List.pairwise_cons.mp hpw).1 b (List.mem_cons_self _ _)
        have h2 : b.year ≤ q.year :=
          hmax b (List.mem_cons_of_mem _ (List.mem_cons_self _ _))
        omega
      · exact ih (List.pairwise_cons.mp hpw).2 q hq2
          (fun x hx => hmax x (List.mem_cons_of_mem _ hx))

lemma months_filter_self {m : String} (hm : m ∈ months) :
    months.filter (fun m2 => decide (m2 = m)) = [m] := by
  fin_cases hm <;> rfl

/-- Refine a characterised (subdivision, year) group filter to a single
month. -/
lemma filter_triple_of_key {l : List LRec} {sub : String} {y : Int} {g : String → LRec}
    (hkey : l.filter (fun x => decide (x.subdivision = sub ∧ x.year = y)) = months.map g)
    (hmonth : ∀ m2, (g m2).month = m2) {m : String} (hm : m ∈ months) :
    l.filter (fun x => decide (x.subdivision = sub ∧ x.year = y ∧ x.month = m))
      = [g m] := by
  have hsplit : l.filter (fun x => decide (x.subdivision = sub ∧ x.year = y ∧ x.month = m))
      = (l.filter (fun x => decide (x.subdivision = sub ∧ x.year = y))).filter
          (fun x => decide (x.month = m)) := by
    rw [List.filter_filter]
    apply List.filter_congr
    intro x hx
    rcases Decidable.em (x.subdivision = sub) with h1 | h1 <;>
      rcases Decidable.em (x.year = y) with h2 | h2 <;>
        rcases Decidable.em (x.month = m) with h3 | h3 <;>
          simp [h1, h2, h3]
  rw [hsplit, hkey, List.filter_map]
  have hc : ∀ m2 ∈ months,
      ((fun x : LRec => decide (x.month = m)) ∘ g) m2
        = (fun m2 : String => decide (m2 = m)) m2 := by
    intro m2 hm2
    simp [Function.comp, hmonth m2]
  rw [List.filter_congr hc, months_filter_self hm]
  rfl

lemma dfMelted_filter_triple {rows : List RawRow}
    (hkeys : (rows.map fun r => (r.subdivision, r.year)).Nodup)
    {row : RawRow} (hrow : row ∈ rows) {m : String} (hm : m ∈ months) :
    (dfMelted rows).filter
        (fun x => decide (x.subdivision = row.subdivision ∧ x.year = row.year ∧
          x.month = m))
      = [lrecOf row m] := by
  refine filter_triple_of_key (dfMelted_filter_key hkeys hrow) ?_ hm
  intro m2
  rfl

lemma dfImputed_filter_triple {rows : List RawRow}
    (hkeys : (rows.map fun r => (r.subdivision, r.year)).Nodup)
    {row : RawRow} (hrow : row ∈ rows) {m : String} (hm : m ∈ months) :
    (dfImputed rows).filter
        (fun x => decide (x.subdivision = row.subdivision ∧ x.year = row.year ∧
          x.month = m))
      = [fillCell (dfMelted rows) (lrecOf row m)] := by
  refine filter_triple_of_key (dfImputed_filter_key hkeys hrow) ?_ hm
  intro m2
  simp [lrecOf]

/-- The enrichment adds columns but leaves the key fields and the rainfall
cell of every row unchanged, so filtering by key and projecting rainfall
commutes with it. -/
lemma enrich_filter_key_rainfall_aux (xs : List LRec) (sub : String) (y : Int)
    (m : String) :
    ∀ (l : List LRec) (n : Nat),
      ((((l.enumFrom n).map (enrichRow xs)).filter fun r =>
          decide (r.subdivision = sub ∧ r.year = y ∧ r.month = m)).map
            fun r => r.rainfall)
        = ((l.filter fun q =>
            decide (q.subdivision = sub ∧ q.year = y ∧ q.month = m)).map
              fun q => q.rainfall) := by
  intro l
  induction l with
  | nil => intro n; rfl
  | cons a t ih =>
    intro n
    rw [List.enumFrom_cons, List.map_cons, List.filter_cons, List.filter_cons]
    by_cases hpa : a.subdivision = sub ∧ a.year = y ∧ a.month = m
    · rw [if_pos (by simpa [enrichRow] using hpa), if_pos (by simpa using hpa),
        List.map_cons, List.map_cons, ih]
      rfl
    · rw [if_neg (by simpa [enrichRow] using hpa), if_neg (by simpa using hpa), ih]

lemma enrich_filter_key_rainfall (xs : List LRec) (sub : String) (y : Int)
    (m : String) :
    (((enrich xs).filter fun r =>
        decide (r.subdivision = sub ∧ r.year = y ∧ r.month = m)).map
          fun r => r.rainfall)
      = ((xs.filter fun q =>
          decide (q.subdivision = sub ∧ q.year = y ∧ q.month = m)).map
            fun q => q.rainfall) :=
  enrich_filter_key_rainfall_aux xs sub y m xs 0

/-- The monthly output cell at (subdivision, year, month) is the imputed
cell of that row and month. -/
lemma monthlyRainfall_eq {rows : List RawRow}
    (hkeys : (rows.map fun r => (r.subdivision, r.year)).Nodup)
    {row : RawRow} (hrow : row ∈ rows) {m : String} (hm : m ∈ months) :
    monthlyRainfall rows row.subdivision row.year m
      = (fillCell (dfMelted rows) (lrecOf row m)).rainfall := by
  unfold monthlyRainfall
  rw [show monthlyDf rows = enrich (dfImputed rows) from rfl]
  rw [enrich_filter_key_rainfall, dfImputed_filter_triple hkeys hrow hm]
  rfl

/-- Every record of the imputed table is the imputed record of a raw row
and a month. -/
lemma mem_dfImputed_struct {rows : List RawRow} {x : LRec}
    (hx : x ∈ dfImputed rows) :
    ∃ row ∈ rows, ∃ m ∈ months,
      x = fillCell (dfMelted rows) (lrecOf row m) := by
  rw [dfImputed_eq_map] at hx
  rcases List.mem_map.mp hx with ⟨l, hl, rfl⟩
  rw [dfMelted] at hl
  simp only [withDate] at hl
  rcases List.mem_map.mp hl with ⟨nr, hnr, rfl⟩
  have hnr2 : nr ∈ withMonthNum (meltRows rows) :=
    (List.mem_insertionSort keyLE).mp hnr
  rw [withMonthNum_meltRows] at hnr2
  rcases List.mem_flatMap.mp hnr2 with ⟨m, hm, hx2⟩
  rcases List.mem_map.mp hx2 with ⟨row, hrow, rfl⟩
  exact ⟨row, hrow, m, hm, rfl⟩

lemma seasonMonthsSpec_cases {s : String} (h : seasonMonthsSpec s ≠ []) :
    s = "Winter" ∨ s = "Spring" ∨ s = "Summer" ∨ s = "Autumn" := by
  unfold seasonMonthsSpec at h
  split at h <;> simp_all

/-- If a (subdivision, month) group is entirely null, it is still
entirely null after the fill map. -/
lemma groupVals_map_fill_nil (xs : List LRec) (sub mon : String)
    (h : groupVals xs sub mon = []) :
    groupVals (xs.map (fillCell xs)) sub mon = [] := by
  unfold groupVals at h ⊢
  rw [List.filter_map]
  have hc : ∀ x ∈ xs,
      ((fun r : LRec => decide (r.subdivision = sub ∧ r.month = mon)) ∘ fillCell xs) x
        = (fun r : LRec => decide (r.subdivision = sub ∧ r.month = mon)) x := by
    intro x hx
    simp [Function.comp]
  rw [List.filter_congr hc, List.filterMap_map]
  have hall : ∀ a ∈ xs.filter (fun r => decide (r.subdivision = sub ∧ r.month = mon)),
      a.rainfall = none := List.filterMap_eq_nil_iff.mp h
  refine List.filterMap_eq_nil_iff.mpr ?_
  intro a ha
  have hmem := List.mem_filter.mp ha
  have hprop := of_decide_eq_true hmem.2
  have hnone := hall a ha
  show (fillCell xs a).rainfall = none
  rw [fillCell_of_none xs hnone]
  show groupMean xs a.subdivision a.month = none
  rw [hprop.1, hprop.2]
  have h0 : (groupVals xs sub mon).length = 0 := by
    unfold groupVals
    rw [h]
    rfl
  simp [groupMean, h0]

lemma length_dfMelted (rows : List RawRow) :
    (dfMelted rows).length = 12 * rows.length := by
  rw [dfMelted]
  simp only [withDate, List.length_map]
  rw [show (sortRecs (withMonthNum (meltRows rows))).length
      = (withMonthNum (meltRows rows)).length from
    (List.perm_insertionSort keyLE _).length_eq]
  simp only [withMonthNum, List.length_map]
  rw [meltRows, List.length_flatMap]
  simp [months]
  omega

/-! ### The claims -/

/-- C1: in a wide table with unique (subdivision, year) rows, the melted
long table holds exactly one record for each (subdivision, year, month)
combination — twelve records per raw row — and that record's rainfall is
the source cell of that row and month, so grouping the long rainfall back
by subdivision, year and month reproduces every RawTable cell exactly. -/
theorem c1_reshape_roundtrip (rows : List RawRow)
    (hkeys : (rows.map fun r => (r.subdivision, r.year)).Nodup)
    (row : RawRow) (hrow : row ∈ rows) (m : String) (hm : m ∈ months) :
    (dfMelted rows).filter
        (fun x => decide (x.subdivision = row.subdivision ∧ x.year = row.year ∧
          x.month = m))
      = [{ subdivision := row.subdivision, year := row.year, month := m,
           rainfall := monthVal row m, month_num := monthToNum m,
           date := (row.year, monthToNum m, 1) }] ∧
    (dfMelted rows).length = 12 * rows.length :=
  ⟨dfMelted_filter_triple hkeys hrow hm, length_dfMelted rows⟩

/-- C1 witness: the one-row example table, at month jan. -/
theorem c1_reshape_roundtrip_witness :
    ((rowsOne.map fun r => (r.subdivision, r.year)).Nodup ∧
      rowX1901 ∈ rowsOne ∧ "jan" ∈ months) ∧
    ((dfMelted rowsOne).filter
        (fun x => decide (x.subdivision = rowX1901.subdivision ∧
          x.year = rowX1901.year ∧ x.month = "jan"))
      = [{ subdivision := rowX1901.subdivision, year := rowX1901.year,
           month := "jan", rainfall := monthVal rowX1901 "jan",
           month_num := monthToNum "jan",
           date := (rowX1901.year, monthToNum "jan", 1) }] ∧
      (dfMelted rowsOne).length = 12 * rowsOne.length) :=
  ⟨⟨by decide, by decide, by decide⟩,
    c1_reshape_roundtrip rowsOne (by decide) rowX1901 (by decide) "jan" (by decide)⟩

/-- C8: the reshaper turns each raw row into twelve long records, one per
month in fixed calendar order, with month_num given by the jan=1 ... dec=12
dictionary and date the triple (year, month number, 1), i.e. the first day
of that month of that year, and rainfall the source cell. -/
theorem c8_reshaper_row_records (rows : List RawRow)
    (hkeys : (rows.map fun r => (r.subdivision, r.year)).Nodup)
    (row : RawRow) (hrow : row ∈ rows) :
    (dfMelted rows).filter
        (fun x => decide (x.subdivision = row.subdivision ∧ x.year = row.year))
      = months.map (fun m =>
          ({ subdivision := row.subdivision, year := row.year, month := m,
             rainfall := monthVal row m, month_num := monthToNum m,
             date := (row.year, monthToNum m, 1) } : LRec)) ∧
    months.length = 12 ∧ monthToNum "jan" = 1 ∧ monthToNum "dec" = 12 :=
  ⟨dfMelted_filter_key hkeys hrow, rfl, rfl, rfl⟩

/-- C8 witness: the example row (subdivision X, year 1901, jan 10,
feb 20, ..., dec 15) reshapes to the twelve records; the jan record has
month_num 1, date (1901, 1, 1) and rainfall 10. -/
theorem c8_reshaper_row_records_witness :
    ((rowsOne.map fun r => (r.subdivision, r.year)).Nodup ∧ rowX1901 ∈ rowsOne) ∧
    ((dfMelted rowsOne).filter
        (fun x => decide (x.subdivision = rowX1901.subdivision ∧
          x.year = rowX1901.year))
      = months.map (fun m =>
          ({ subdivision := rowX1901.subdivision, year := rowX1901.year,
             month := m, rainfall := monthVal rowX1901 m,
             month_num := monthToNum m,
             date := (rowX1901.year, monthToNum m, 1) } : LRec)) ∧
      months.length = 12 ∧ monthToNum "jan" = 1 ∧ monthToNum "dec" = 12) :=
  ⟨⟨by decide, by decide⟩,
    c8_reshaper_row_records rowsOne (by decide) rowX1901 (by decide)⟩

/-- C2: in the imputation step, every null rainfall cell becomes the
arithmetic mean of the non-null rainfall values of its own
(subdivision, month) group, and stays null when that group has no
non-null value (no global fallback). -/
theorem c2_imputation_group_mean (xs : List LRec) (i : Nat) (hi : i < xs.length)
    (hnull : (xs.get ⟨i, hi⟩).rainfall = none) :
    ∃ h2 : i < (imputeStep xs).length,
      ((imputeStep xs).get ⟨i, h2⟩).rainfall =
        (if groupVals xs (xs.get ⟨i, hi⟩).subdivision (xs.get ⟨i, hi⟩).month = []
         then none
         else some
           ((groupVals xs (xs.get ⟨i, hi⟩).subdivision (xs.get ⟨i, hi⟩).month).sum /
             ((groupVals xs (xs.get ⟨i, hi⟩).subdivision
               (xs.get ⟨i, hi⟩).month).length : ℚ))) := by
  have hlen : (imputeStep xs).length = xs.length := by
    rw [imputeStep_eq_map, List.length_map]
  refine ⟨by omega, ?_⟩
  simp only [imputeStep_eq_map, List.get_eq_getElem, List.getElem_map]
  simp only [List.get_eq_getElem] at hnull
  rw [fillCell_of_none xs hnull]
  show groupMean xs (xs[i]).subdivision (xs[i]).month = _
  by_cases hv : groupVals xs (xs[i]).subdivision (xs[i]).month = []
  · simp [groupMean, hv]
  · have hlen0 : (groupVals xs (xs[i]).subdivision (xs[i]).month).length ≠ 0 := by
      simpa [List.length_eq_zero] using hv
    simp [groupMean, hv, hlen0]

/-- C2 witness: the group (X, jan) with cells 10 and null; the null cell
of the second record is imputed to 10, the mean of the single non-null
value of the group. -/
theorem c2_imputation_group_mean_witness :
    (1 < impExample.length ∧
      (impExample.get ⟨1, by decide⟩).rainfall = none) ∧
    ((imputeStep impExample).get
        ⟨1, by rw [imputeStep_eq_map, List.length_map]; decide⟩).rainfall
      = some 10 := by
  refine ⟨⟨by decide, by decide⟩, ?_⟩
  obtain ⟨h2, heq⟩ := c2_imputation_group_mean impExample 1 (by decide) (by decide)
  refine heq.trans ?_
  norm_num [groupVals, impExample, List.filterMap_cons, List.filterMap_nil]

/-- C10: the imputation step keeps the number and the order of the
records, never touches the subdivision, year, month, month_num and date
fields, and keeps every non-null rainfall cell exactly as it was. -/
theorem c10_imputation_frame (xs : List LRec) (i : Nat) (hi : i < xs.length) :
    (imputeStep xs).length = xs.length ∧
    ∃ h2 : i < (imputeStep xs).length,
      ((imputeStep xs).get ⟨i, h2⟩).subdivision = (xs.get ⟨i, hi⟩).subdivision ∧
      ((imputeStep xs).get ⟨i, h2⟩).year = (xs.get ⟨i, hi⟩).year ∧
      ((imputeStep xs).get ⟨i, h2⟩).month = (xs.get ⟨i, hi⟩).month ∧
      ((imputeStep xs).get ⟨i, h2⟩).month_num = (xs.get ⟨i, hi⟩).month_num ∧
      ((imputeStep xs).get ⟨i, h2⟩).date = (xs.get ⟨i, hi⟩).date ∧
      ∀ v : ℚ, (xs.get ⟨i, hi⟩).rainfall = some v →
        ((imputeStep xs).get ⟨i, h2⟩).rainfall = some v := by
  have hlen : (imputeStep xs).length = xs.length := by
    rw [imputeStep_eq_map, List.length_map]
  refine ⟨hlen, by omega, ?_, ?_, ?_, ?_, ?_, ?_⟩
  · simp [imputeStep_eq_map]
  · simp [imputeStep_eq_map]
  · simp [imputeStep_eq_map]
  · simp [imputeStep_eq_map]
  · simp [imputeStep_eq_map]
  · intro v hv
    simp only [List.get_eq_getElem] at hv
    simp only [imputeStep_eq_map, List.get_eq_getElem, List.getElem_map]
    rw [fillCell_of_some xs hv]
    exact hv

/-- C10 witness at the two-record example table, index 0 (a non-null
cell, kept unchanged together with every other field). -/
theorem c10_imputation_frame_witness :
    0 < impExample.length ∧
    ((imputeStep impExample).length = impExample.length ∧
      ∃ h2 : 0 < (imputeStep impExample).length,
        ((imputeStep impExample).get ⟨0, h2⟩).subdivision
            = (impExample.get ⟨0, by decide⟩).subdivision ∧
        ((imputeStep impExample).get ⟨0, h2⟩).year
            = (impExample.get ⟨0, by decide⟩).year ∧
        ((imputeStep impExample).get ⟨0, h2⟩).month
            = (impExample.get ⟨0, by decide⟩).month ∧
        ((imputeStep impExample).get ⟨0, h2⟩).month_num
            = (impExample.get ⟨0, by decide⟩).month_num ∧
        ((imputeStep impExample).get ⟨0, h2⟩).date
            = (impExample.get ⟨0, by decide⟩).date ∧
        ∀ v : ℚ, (impExample.get ⟨0, by decide⟩).rainfall = some v →
          ((imputeStep impExample).get ⟨0, h2⟩).rainfall = some v) :=
  ⟨by decide, c10_imputation_frame impExample 0 (by decide)⟩

/-- C7: the imputation step is idempotent: applied to a table it has
already imputed it changes nothing (no null remains, except in all-null
groups whose mean is again null, a no-op for fillna). -/
theorem c7_imputation_idempotent (xs : List LRec) :
    imputeStep (imputeStep xs) = imputeStep xs := by
  rw [imputeStep_eq_map (imputeStep xs), imputeStep_eq_map xs]
  refine (List.map_congr_left ?_).trans (List.map_id _)
  intro a ha
  rcases List.mem_map.mp ha with ⟨r, hr, rfl⟩
  show fillCell (xs.map (fillCell xs)) (fillCell xs r) = fillCell xs r
  cases hv : r.rainfall with
  | some v =>
    rw [fillCell_of_some xs hv]
    exact fillCell_of_some _ hv
  | none =>
    rw [fillCell_of_none xs hv]
    cases hgm : groupMean xs r.subdivision r.month with
    | some w => exact fillCell_of_some _ rfl
    | none =>
      rw [fillCell_of_none _
        (show ({ r with rainfall := none } : LRec).rainfall = none from rfl)]
      have hnilxs : groupVals xs r.subdivision r.month = [] := by
        by_contra hne
        have hlen0 : (groupVals xs r.subdivision r.month).length ≠ 0 :=
          fun h0 => hne (List.length_eq_zero.mp h0)
        simp [groupMean, hlen0] at hgm
      have hnilys := groupVals_map_fill_nil xs r.subdivision r.month hnilxs
      have hgm2 : groupMean (xs.map (fillCell xs)) r.subdivision r.month = none := by
        simp [groupMean, hnilys]
      simp [hgm2]

/-- C5 counterexample: a read failure is not turned into an empty result;
`preprocess_rainfall_data` has no try/except, so the error propagates out
of it and no ok-result (empty or otherwise) is ever produced. -/
theorem c5_counterexample :
    preprocess_rainfall_data (Except.error "FileNotFoundError")
        = Except.error "FileNotFoundError" ∧
    (preprocess_rainfall_data (Except.error "FileNotFoundError")).isOk = false :=
  ⟨rfl, rfl⟩

/-- C5 amended: when loading raises, the exception propagates out of
`preprocess_rainfall_data` unchanged (the run aborts); no empty result is
returned, and no downstream step runs on a null input. -/
theorem c5_amended (e : String) :
    preprocess_rainfall_data (Except.error e) = Except.error e := rfl

/-- C9 counterexample: with the year column absent, `pd.melt` raises a
KeyError instead of returning an empty result, and the error propagates
out of the whole run. -/
theorem c9_counterexample :
    meltFrame frameNoYear
        = Except.error "KeyError: id_vars are not present in the DataFrame" ∧
    (meltFrame frameNoYear).isOk = false ∧
    meltFrame frameNoYear ≠ Except.ok [] ∧
    preprocess_rainfall_data (Except.ok frameNoYear)
        = Except.error "KeyError: id_vars are not present in the DataFrame" := by
  refine ⟨rfl, rfl, ?_, rfl⟩
  intro h
  rw [show meltFrame frameNoYear
      = Except.error "KeyError: id_vars are not present in the DataFrame" from rfl] at h
  exact Except.noConfusion h

/-- C9 amended: when either identifying column is absent, the reshaper
raises (returns an error) and the run aborts with no partial reshape —
rather than returning an empty ok-result. -/
theorem c9_amended (fr : Frame)
    (h : ¬ ("subdivision" ∈ fr.cols ∧ "year" ∈ fr.cols)) :
    meltFrame fr
      = Except.error "KeyError: id_vars are not present in the DataFrame" := by
  unfold meltFrame
  rw [if_neg h]

/-- C9 witness: the frame with columns subdivision and jan only. -/
theorem c9_amended_witness :
    (¬ ("subdivision" ∈ frameNoYear.cols ∧ "year" ∈ frameNoYear.cols)) ∧
    meltFrame frameNoYear
      = Except.error "KeyError: id_vars are not present in the DataFrame" :=
  ⟨by decide, c9_amended frameNoYear (by decide)⟩

/-- C3 (amended): for every record of the monthly output, yoy_change_pct
is the float evaluation of (rainfall − prev) / prev · 100, and the
computation is total (it never raises): it equals the stated formula
whenever prev is non-null and non-zero and rainfall is non-null; it is
null (NaN) whenever prev is null, whenever rainfall is null, and when
prev is zero with rainfall also zero; but when prev is zero and rainfall
is non-zero it is a signed infinity, not null — the one place the
original claim fails. -/
theorem c3_yoy_pct_cases (rows : List RawRow) (r : ERec)
    (hr : r ∈ monthlyDf rows) :
    (∀ p v : ℚ, r.prev_year_rainfall = some p → p ≠ 0 → r.rainfall = some v →
        r.yoy_change_pct = PFloat.fin ((v - p) / p * 100)) ∧
    (r.prev_year_rainfall = none → r.yoy_change_pct = PFloat.nan) ∧
    (r.rainfall = none → r.yoy_change_pct = PFloat.nan) ∧
    (∀ v : ℚ, r.prev_year_rainfall = some 0 → r.rainfall = some v → 0 < v →
        r.yoy_change_pct = PFloat.pinf) ∧
    (∀ v : ℚ, r.prev_year_rainfall = some 0 → r.rainfall = some v → v < 0 →
        r.yoy_change_pct = PFloat.ninf) ∧
    (r.prev_year_rainfall = some 0 → r.rainfall = some 0 →
        r.yoy_change_pct = PFloat.nan) := by
  rcases List.mem_iff_getElem.mp hr with ⟨i, hlen, hget⟩
  have hlen2 : i < (enrich (dfImputed rows)).length := hlen
  have hi : i < (dfImputed rows).length := by
    have h := hlen2
    rw [length_enrich] at h
    exact h
  have hE := enrich_get (dfImputed rows) i hi hlen2
  have hr2 : r = (enrich (dfImputed rows)).get ⟨i, hlen2⟩ := by
    rw [← hget, List.get_eq_getElem]
    rfl
  rw [hr2, hE]
  set q := (dfImputed rows).get ⟨i, hi⟩ with hq
  set prev := shiftPrev (dfImputed rows) i q with hprevdef
  refine ⟨?_, ?_, ?_, ?_, ?_, ?_⟩
  · intro p v hp hp0 hv
    have hp2 : prev = some p := hp
    have hv2 : q.rainfall = some v := hv
    show fmul100 (fdiv (subOpt q.rainfall prev) prev) = PFloat.fin ((v - p) / p * 100)
    rw [hp2, hv2]
    simp [subOpt, fdiv, fmul100, hp0]
  · intro hp
    have hp2 : prev = none := hp
    show fmul100 (fdiv (subOpt q.rainfall prev) prev) = PFloat.nan
    rw [hp2]
    cases q.rainfall <;> simp [subOpt, fdiv, fmul100]
  · intro hv
    have hv2 : q.rainfall = none := hv
    show fmul100 (fdiv (subOpt q.rainfall prev) prev) = PFloat.nan
    rw [hv2]
    cases prev <;> simp [subOpt, fdiv, fmul100]
  · intro v hp hv hpos
    have hp2 : prev = some 0 := hp
    have hv2 : q.rainfall = some v := hv
    show fmul100 (fdiv (subOpt q.rainfall prev) prev) = PFloat.pinf
    rw [hp2, hv2]
    simp [subOpt, fdiv, fmul100, sub_zero, hpos, hpos.ne']
  · intro v hp hv hneg
    have hp2 : prev = some 0 := hp
    have hv2 : q.rainfall = some v := hv
    show fmul100 (fdiv (subOpt q.rainfall prev) prev) = PFloat.ninf
    rw [hp2, hv2]
    simp [subOpt, fdiv, fmul100, sub_zero, hneg.ne, not_lt.mpr hneg.le]
  · intro hp hv
    have hp2 : prev = some 0 := hp
    have hv2 : q.rainfall = some 0 := hv
    show fmul100 (fdiv (subOpt q.rainfall prev) prev) = PFloat.nan
    rw [hp2, hv2]
    simp [subOpt, fdiv, fmul100]

/-- C3 witness at the one-row example table: its january record, whose
previous-year rainfall is null, gets a null (NaN) percentage change. -/
theorem c3_yoy_pct_cases_witness :
    janRecOne ∈ monthlyDf rowsOne ∧
    ((∀ p v : ℚ, janRecOne.prev_year_rainfall = some p → p ≠ 0 →
        janRecOne.rainfall = some v →
        janRecOne.yoy_change_pct = PFloat.fin ((v - p) / p * 100)) ∧
      (janRecOne.prev_year_rainfall = none → janRecOne.yoy_change_pct = PFloat.nan) ∧
      (janRecOne.rainfall = none → janRecOne.yoy_change_pct = PFloat.nan) ∧
      (∀ v : ℚ, janRecOne.prev_year_rainfall = some 0 → janRecOne.rainfall = some v →
        0 < v → janRecOne.yoy_change_pct = PFloat.pinf) ∧
      (∀ v : ℚ, janRecOne.prev_year_rainfall = some 0 → janRecOne.rainfall = some v →
        v < 0 → janRecOne.yoy_change_pct = PFloat.ninf) ∧
      (janRecOne.prev_year_rainfall = some 0 → janRecOne.rainfall = some 0 →
        janRecOne.yoy_change_pct = PFloat.nan)) :=
  ⟨by decide, c3_yoy_pct_cases rowsOne janRecOne (by decide)⟩

/-- C3 counterexample: in the two-year table with january rainfall 0 then
5, the 1902 january record has a non-null, zero previous-year rainfall,
and its yoy_change_pct is positive infinity — not null as the claim
states. -/
theorem c3_counterexample :
    ((monthlyDf rowsZero).filter fun r =>
        decide (r.year = 1902 ∧ r.month = "jan")).map
          (fun r => (r.prev_year_rainfall, r.yoy_change_pct))
      = [(some 0, PFloat.pinf)] ∧
    PFloat.pinf ≠ PFloat.nan := by
  have hprev12 : shiftPrev (dfImputed rowsZero) 12
      ⟨"X", 1902, "jan", some 5, 1, (1902, 1, 1)⟩ = some 0 := by decide
  have hfilter : (monthlyDf rowsZero).filter
        (fun r => decide (r.year = 1902 ∧ r.month = "jan"))
      = [enrichRow (dfImputed rowsZero)
          (12, ⟨"X", 1902, "jan", some 5, 1, (1902, 1, 1)⟩)] := rfl
  refine ⟨?_, by decide⟩
  rw [hfilter]
  show [(shiftPrev (dfImputed rowsZero) 12 ⟨"X", 1902, "jan", some 5, 1, (1902, 1, 1)⟩,
      fmul100 (fdiv
        (subOpt (some 5)
          (shiftPrev (dfImputed rowsZero) 12 ⟨"X", 1902, "jan", some 5, 1, (1902, 1, 1)⟩))
        (shiftPrev (dfImputed rowsZero) 12 ⟨"X", 1902, "jan", some 5, 1, (1902, 1, 1)⟩)))]
    = [(some 0, PFloat.pinf)]
  rw [hprev12]
  norm_num [subOpt, fdiv, fmul100]

/-- When a (subdivision, month) group has no earlier-year record at all,
the grouped shift yields null. -/
lemma shiftPrev_none (ys : List LRec)
    (hmono : List.Pairwise (fun a b : LRec =>
      a.subdivision = b.subdivision → a.month = b.month → a.year < b.year) ys)
    (i : Nat) (hi : i < ys.length)
    (h0 : ys.filter (fun q =>
      decide (q.subdivision = (ys.get ⟨i, hi⟩).subdivision ∧
        q.month = (ys.get ⟨i, hi⟩).month ∧
        q.year < (ys.get ⟨i, hi⟩).year)) = []) :
    shiftPrev ys i (ys.get ⟨i, hi⟩) = none := by
  rw [shiftPrev_eq_filter ys hmono i hi, h0]
  rfl

/-- The grouped shift yields the rainfall of the group record with the
greatest year strictly below the current year. -/
lemma shiftPrev_max (ys : List LRec)
    (hmono : List.Pairwise (fun a b : LRec =>
      a.subdivision = b.subdivision → a.month = b.month → a.year < b.year) ys)
    (i : Nat) (hi : i < ys.length) (qq : LRec) (hq1 : qq ∈ ys)
    (hq2 : qq.subdivision = (ys.get ⟨i, hi⟩).subdivision)
    (hq3 : qq.month = (ys.get ⟨i, hi⟩).month)
    (hq4 : qq.year < (ys.get ⟨i, hi⟩).year)
    (hmax : ∀ q2 ∈ ys, q2.subdivision = (ys.get ⟨i, hi⟩).subdivision →
      q2.month = (ys.get ⟨i, hi⟩).month → q2.year < (ys.get ⟨i, hi⟩).year →
      q2.year ≤ qq.year) :
    shiftPrev ys i (ys.get ⟨i, hi⟩) = qq.rainfall := by
  rw [shiftPrev_eq_filter ys hmono i hi]
  have hqmem : qq ∈ ys.filter (fun q =>
      decide (q.subdivision = (ys.get ⟨i, hi⟩).subdivision ∧
        q.month = (ys.get ⟨i, hi⟩).month ∧
        q.year < (ys.get ⟨i, hi⟩).year)) :=
    List.mem_filter.mpr ⟨hq1, by
      simp only [decide_eq_true_eq]
      exact ⟨hq2, hq3, hq4⟩⟩
  have hpw : List.Pairwise (fun a b : LRec => a.year < b.year)
      (ys.filter (fun q =>
        decide (q.subdivision = (ys.get ⟨i, hi⟩).subdivision ∧
          q.month = (ys.get ⟨i, hi⟩).month ∧
          q.year < (ys.get ⟨i, hi⟩).year))) := by
    refine (hmono.filter _).imp_of_mem ?_
    intro a b ha hb hab
    have hA := List.mem_filter.mp ha
    have hB := List.mem_filter.mp hb
    have hA2 := of_decide_eq_true hA.2
    have hB2 := of_decide_eq_true hB.2
    exact hab (hA2.1.trans hB2.1.symm) (hA2.2.1.trans hB2.2.1.symm)
  have hmax2 : ∀ x ∈ ys.filter (fun q =>
      decide (q.subdivision = (ys.get ⟨i, hi⟩).subdivision ∧
        q.month = (ys.get ⟨i, hi⟩).month ∧
        q.year < (ys.get ⟨i, hi⟩).year)), x.year ≤ qq.year := by
    intro x hx
    have hX := List.mem_filter.mp hx
    have hX2 := of_decide_eq_true hX.2
    exact hmax x hX.1 hX2.1 hX2.2.1 hX2.2.2
  rw [getLast?_of_max _ hpw qq hqmem hmax2]
  rfl

/-- C4 (amended): for every record of the monthly output,
prev_year_rainfall is the rainfall of the record of the same
(subdivision, month) group with the most recent year strictly before the
current one — which is the value one calendar year earlier whenever a
record for year − 1 is present, but the latest earlier year present when
the table has gaps — and null when no earlier year exists (in particular
for the first year of each series). -/
theorem c4_prev_year_latest_earlier (rows : List RawRow)
    (hkeys : (rows.map fun r => (r.subdivision, r.year)).Nodup)
    (r : ERec) (hr : r ∈ monthlyDf rows) :
    (((dfImputed rows).filter fun q =>
        decide (q.subdivision = r.subdivision ∧ q.month = r.month ∧
          q.year < r.year)) = [] →
      r.prev_year_rainfall = none) ∧
    (∀ q : LRec, q ∈ dfImputed rows → q.subdivision = r.subdivision →
      q.month = r.month → q.year < r.year →
      (∀ q2 : LRec, q2 ∈ dfImputed rows → q2.subdivision = r.subdivision →
        q2.month = r.month → q2.year < r.year → q2.year ≤ q.year) →
      r.prev_year_rainfall = q.rainfall) ∧
    (∀ q : LRec, q ∈ dfImputed rows → q.subdivision = r.subdivision →
      q.month = r.month → q.year = r.year - 1 →
      r.prev_year_rainfall = q.rainfall) := by
  rcases List.mem_iff_getElem.mp hr with ⟨i, hlen, hget⟩
  have hlen2 : i < (enrich (dfImputed rows)).length := hlen
  have hi : i < (dfImputed rows).length := by
    have h := hlen2
    rw [length_enrich] at h
    exact h
  have hE := enrich_get (dfImputed rows) i hi hlen2
  have hr2 : r = (enrich (dfImputed rows)).get ⟨i, hlen2⟩ := by
    rw [← hget, List.get_eq_getElem]
    rfl
  have hmono := groupMono_imputed hkeys
  rw [hr2, hE]
  refine ⟨?_, ?_, ?_⟩
  · intro h0
    show shiftPrev (dfImputed rows) i ((dfImputed rows).get ⟨i, hi⟩) = none
    exact shiftPrev_none (dfImputed rows) hmono i hi h0
  · intro qq hq1 hq2 hq3 hq4 hmax
    show shiftPrev (dfImputed rows) i ((dfImputed rows).get ⟨i, hi⟩) = qq.rainfall
    exact shiftPrev_max (dfImputed rows) hmono i hi qq hq1 hq2 hq3 hq4 hmax
  · intro qq hq1 hq2 hq3 hq4
    show shiftPrev (dfImputed rows) i ((dfImputed rows).get ⟨i, hi⟩) = qq.rainfall
    have hq4i : qq.year = ((dfImputed rows).get ⟨i, hi⟩).year - 1 := hq4
    refine shiftPrev_max (dfImputed rows) hmono i hi qq hq1 hq2 hq3 (by omega) ?_
    intro q2 h1 h2 h3 h4
    omega

/-- C4 witness: the gap table, at its january 1901 record — the first
year of the series, whose previous-year rainfall is null (the no-earlier-
record case), with the two value cases available for any suitable group
record. -/
theorem c4_prev_year_latest_earlier_witness :
    ((rowsGap.map fun r => (r.subdivision, r.year)).Nodup ∧
      janRecGap ∈ monthlyDf rowsGap) ∧
    ((((dfImputed rowsGap).filter fun q =>
        decide (q.subdivision = janRecGap.subdivision ∧ q.month = janRecGap.month ∧
          q.year < janRecGap.year)) = [] →
      janRecGap.prev_year_rainfall = none) ∧
    (∀ q : LRec, q ∈ dfImputed rowsGap → q.subdivision = janRecGap.subdivision →
      q.month = janRecGap.month → q.year < janRecGap.year →
      (∀ q2 : LRec, q2 ∈ dfImputed rowsGap → q2.subdivision = janRecGap.subdivision →
        q2.month = janRecGap.month → q2.year < janRecGap.year → q2.year ≤ q.year) →
      janRecGap.prev_year_rainfall = q.rainfall) ∧
    (∀ q : LRec, q ∈ dfImputed rowsGap → q.subdivision = janRecGap.subdivision →
      q.month = janRecGap.month → q.year = janRecGap.year - 1 →
      janRecGap.prev_year_rainfall = q.rainfall)) :=
  ⟨⟨by decide, by decide⟩,
    c4_prev_year_latest_earlier rowsGap (by decide) janRecGap (by decide)⟩

/-- C4 counterexample: in the gap table (years 1901 and 1903, no 1902),
the january 1903 record's prev_year_rainfall is 7 — the january 1901
value, two calendar years earlier — although no record one calendar year
earlier (1902) exists in the table at all. -/
theorem c4_counterexample :
    ((monthlyDf rowsGap).filter fun r =>
        decide (r.year = 1903 ∧ r.month = "jan")).map
          (fun r => r.prev_year_rainfall) = [some 7] ∧
    (monthlyDf rowsGap).filter (fun r => decide (r.year = 1902)) = [] := by
  constructor <;> decide

lemma season_months_mem {s m1 m2 m3 : String}
    (hs : seasonMonthsSpec s = [m1, m2, m3]) :
    m1 ∈ months ∧ m2 ∈ months ∧ m3 ∈ months := by
  have hne : seasonMonthsSpec s ≠ [] := by rw [hs]; simp
  rcases seasonMonthsSpec_cases hne with h | h | h | h <;>
    (rw [h] at hs; simp only [seasonMonthsSpec, List.cons.injEq, and_true] at hs;
     obtain ⟨rfl, rfl, rfl⟩ := hs; exact ⟨by decide, by decide, by decide⟩)

/-- The months whose season is s, in calendar order, agree with the fixed
assignment of the specification. -/
lemma months_filter_season {s m1 m2 m3 : String}
    (hs : seasonMonthsSpec s = [m1, m2, m3]) :
    months.filter (fun m => decide (season_map (monthToNum m) = s)) = [m1, m2, m3] := by
  have hne : seasonMonthsSpec s ≠ [] := by rw [hs]; simp
  rcases seasonMonthsSpec_cases hne with h | h | h | h <;>
    (subst h; rw [← hs]; rfl)

/-- The seasonal group sum at a present key is the sum of the three
imputed cells of that season's months. -/
lemma seasonGroupSum_eq {rows : List RawRow}
    (hkeys : (rows.map fun r => (r.subdivision, r.year)).Nodup)
    {row : RawRow} (hrow : row ∈ rows) (s : String) {m1 m2 m3 : String}
    (hms : months.filter (fun m => decide (season_map (monthToNum m) = s))
      = [m1, m2, m3])
    {v1 v2 v3 : ℚ}
    (h1 : (fillCell (dfMelted rows) (lrecOf row m1)).rainfall = some v1)
    (h2 : (fillCell (dfMelted rows) (lrecOf row m2)).rainfall = some v2)
    (h3 : (fillCell (dfMelted rows) (lrecOf row m3)).rainfall = some v3) :
    seasonGroupSum (dfImputed rows) row.subdivision row.year s = v1 + v2 + v3 := by
  unfold seasonGroupSum
  have hsplit : (dfImputed rows).filter (fun q =>
      decide (q.subdivision = row.subdivision ∧ q.year = row.year ∧
        season_map q.month_num = s))
    = ((dfImputed rows).filter (fun q =>
        decide (q.subdivision = row.subdivision ∧ q.year = row.year))).filter
          (fun q => decide (season_map q.month_num = s)) := by
    rw [List.filter_filter]
    apply List.filter_congr
    intro x hx
    rcases Decidable.em (x.subdivision = row.subdivision) with hA | hA <;>
      rcases Decidable.em (x.year = row.year) with hB | hB <;>
        rcases Decidable.em (season_map x.month_num = s) with hC | hC <;>
          simp [hA, hB, hC]
  rw [hsplit, dfImputed_filter_key hkeys hrow, List.filter_map]
  have hc : ∀ m ∈ months,
      ((fun q : LRec => decide (season_map q.month_num = s)) ∘
        fun m => fillCell (dfMelted rows) (lrecOf row m)) m
      = (fun m : String => decide (season_map (monthToNum m) = s)) m := by
    intro m hm
    simp [Function.comp, lrecOf]
  rw [List.filter_congr hc, hms]
  simp [List.filterMap_cons, h1, h2, h3]
  ring

/-- C6: every row of the seasonal output carries the sum of exactly the
three constituent months of its season for its subdivision and year —
with the fixed assignment Dec, Jan, Feb = Winter; Mar, Apr, May = Spring;
Jun, Jul, Aug = Summer; Sep, Oct, Nov = Autumn — whenever those three
monthly cells are non-null. -/
theorem c6_seasonal_sum (rows : List RawRow)
    (hkeys : (rows.map fun r => (r.subdivision, r.year)).Nodup)
    (rec : SeasonalRec) (hrec : rec ∈ seasonalOf rows)
    (m1 m2 m3 : String) (hs : seasonMonthsSpec rec.season = [m1, m2, m3])
    (v1 v2 v3 : ℚ)
    (h1 : monthlyRainfall rows rec.subdivision rec.year m1 = some v1)
    (h2 : monthlyRainfall rows rec.subdivision rec.year m2 = some v2)
    (h3 : monthlyRainfall rows rec.subdivision rec.year m3 = some v3) :
    rec.rainfall = v1 + v2 + v3 := by
  have hrec2 := hrec
  rw [seasonalOf, seasonalDf] at hrec2
  rcases List.mem_map.mp hrec2 with ⟨k, hk, hreceq⟩
  rw [List.mem_dedup] at hk
  rcases List.mem_map.mp hk with ⟨x, hxmem, hkx⟩
  rcases mem_dfImputed_struct hxmem with ⟨row, hrow, m0, hm0, hxeq⟩
  subst hreceq
  subst hkx
  subst hxeq
  simp only [fillCell_subdivision, fillCell_year, fillCell_month_num,
    lrecOf] at h1 h2 h3 hs ⊢
  have hmem := season_months_mem hs
  have hms := months_filter_season hs
  refine (seasonGroupSum_eq hkeys hrow (season_map (monthToNum m0)) hms ?_ ?_ ?_)
  · exact (monthlyRainfall_eq hkeys hrow hmem.1).symm.trans h1
  · exact (monthlyRainfall_eq hkeys hrow hmem.2.1).symm.trans h2
  · exact (monthlyRainfall_eq hkeys hrow hmem.2.2).symm.trans h3

/-- C6 witness: in the one-row example table, the Winter row of the
seasonal output equals jan + feb + dec = 10 + 20 + 15 = 45. -/
theorem c6_seasonal_sum_witness :
    ((rowsOne.map fun r => (r.subdivision, r.year)).Nodup ∧
      (⟨"X", 1901, "Winter", 45⟩ : SeasonalRec) ∈ seasonalOf rowsOne ∧
      seasonMonthsSpec (⟨"X", 1901, "Winter", 45⟩ : SeasonalRec).season
        = ["jan", "feb", "dec"] ∧
      monthlyRainfall rowsOne (⟨"X", 1901, "Winter", 45⟩ : SeasonalRec).subdivision
        (⟨"X", 1901, "Winter", 45⟩ : SeasonalRec).year "jan" = some 10 ∧
      monthlyRainfall rowsOne (⟨"X", 1901, "Winter", 45⟩ : SeasonalRec).subdivision
        (⟨"X", 1901, "Winter", 45⟩ : SeasonalRec).year "feb" = some 20 ∧
      monthlyRainfall rowsOne (⟨"X", 1901, "Winter", 45⟩ : SeasonalRec).subdivision
        (⟨"X", 1901, "Winter", 45⟩ : SeasonalRec).year "dec" = some 15) ∧
    (⟨"X", 1901, "Winter", 45⟩ : SeasonalRec).rainfall = 10 + 20 + 15 := by
  have hw : seasonGroupSum (dfImputed rowsOne) "X" 1901 "Winter" = 45 := by
    have hfil : (dfImputed rowsOne).filter (fun q =>
        decide (q.subdivision = "X" ∧ q.year = 1901 ∧
          season_map q.month_num = "Winter"))
      = [⟨"X", 1901, "jan", some 10, 1, (1901, 1, 1)⟩,
         ⟨"X", 1901, "feb", some 20, 2, (1901, 2, 1)⟩,
         ⟨"X", 1901, "dec", some 15, 12, (1901, 12, 1)⟩] := by decide
    unfold seasonGroupSum
    rw [hfil]
    norm_num [List.filterMap_cons]
  have hmem : (⟨"X", 1901, "Winter", 45⟩ : SeasonalRec) ∈ seasonalOf rowsOne := by
    have hkeysList : ((dfImputed rowsOne).map fun r =>
        (r.subdivision, r.year, season_map r.month_num)).dedup
      = [("X", 1901, "Spring"), ("X", 1901, "Summer"),
         ("X", 1901, "Autumn"), ("X", 1901, "Winter")] := by decide
    show (⟨"X", 1901, "Winter", 45⟩ : SeasonalRec) ∈ seasonalDf (dfImputed rowsOne)
    rw [seasonalDf, hkeysList]
    simp only [List.map_cons, List.map_nil]
    refine List.mem_cons.mpr (Or.inr (List.mem_cons.mpr (Or.inr
      (List.mem_cons.mpr (Or.inr (List.mem_cons.mpr (Or.inl ?_)))))))
    rw [show (45 : ℚ) = seasonGroupSum (dfImputed rowsOne) "X" 1901 "Winter"
      from hw.symm]
  refine ⟨⟨by decide, hmem, by decide, by decide, by decide, by decide⟩, ?_⟩
  exact c6_seasonal_sum rowsOne (by decide) ⟨"X", 1901, "Winter", 45⟩ hmem
    "jan" "feb" "dec" (by decide) 10 20 15 (by decide) (by decide) (by decide)
